import Mathlib

/-!
# DoxlyR01 frontend snippets: `makeApiCall`, `testApiConnection`, `handleApiError`

A shallow embedding of the three JavaScript snippets under `frontend/src`:

* `services/api.service.js`: the module-level `headers` object and `makeApiCall`;
* `utils/api.test.js`: `testApiConnection`;
* `utils/error-handler.js`: `handleApiError`.

JavaScript values are a tree type `JsVal`.  The browser is explicit: the ambient
`API_BASE_URL`, `localStorage.getItem` and `getCookie` are fields of `Env`, `fetch` is a
function from the request it is called with to its outcome (rejection or response), each
invocation of `fetch` is recorded by `callFetch`, and the console and the list of issued
requests are returned next to the result of each call.
An `async` function that rejects is a result `Except.error e`; one that resolves with `v`
is `Except.ok v`.
-/

namespace Doxly

/-! ## JavaScript values -/

/-- JavaScript values, as far as the snippets handle them.  Numbers are the integers plus
`NaN`; `error name message own` is an `Error` instance (`name` is the constructor's name,
`own` the further own properties attached to it, such as `response`). -/
inductive JsVal where
  | undefined : JsVal
  | null : JsVal
  | bool (b : Bool) : JsVal
  | num (n : Int) : JsVal
  | nan : JsVal
  | str (s : String) : JsVal
  | arr (items : List JsVal) : JsVal
  | obj (fields : List (String × JsVal)) : JsVal
  | error (name message : String) (own : List (String × JsVal)) : JsVal

namespace JsVal

/-- ECMAScript `ToBoolean`: the falsy values are `undefined`, `null`, `false`, `0`, `NaN`
and the empty string. -/
def truthy : JsVal → Bool
  | undefined => false
  | null => false
  | bool b => b
  | num n => n != 0
  | nan => false
  | str s => s != ""
  | arr _ => true
  | obj _ => true
  | error _ _ _ => true

/-- Whether the value is `null` or `undefined` (what `?.` and property access test). -/
def nullish : JsVal → Bool
  | undefined => true
  | null => true
  | _ => false

end JsVal

open JsVal

/-- Look a key up in a property list; a later entry for the same key wins, as for repeated
keys of an object literal. -/
def lookupField : List (String × JsVal) → String → Option JsVal
  | [], _ => none
  | (k, v) :: rest, key =>
    match lookupField rest key with
    | some w => some w
    | none => if k = key then some v else none

/-- The expression `new Error(message)`. -/
def newError (message : String) : JsVal := JsVal.error "Error" message []

/-- The `TypeError` the engine raises for `base.key` when `base` is `null` or `undefined`. -/
def nullishAccessError (base : String) (key : String) : JsVal :=
  JsVal.error "TypeError" ("Cannot read properties of " ++ base ++ " (reading \x27" ++ key ++ "\x27)") []

/-- Property read `v.key` for the keys the snippets read (`message`, `response`, `status`,
`statusText`, `url`, `headers`): a `TypeError` on `null` and `undefined`, the own property
when there is one, `undefined` otherwise (no prototype defines one of these keys, apart
from `message` of an `Error`). -/
def getProp (v : JsVal) (key : String) : Except JsVal JsVal :=
  match v with
  | JsVal.undefined => .error (nullishAccessError "undefined" key)
  | JsVal.null => .error (nullishAccessError "null" key)
  | JsVal.obj fields => .ok ((lookupField fields key).getD JsVal.undefined)
  | JsVal.error _ message own =>
    match lookupField own key with
    | some w => .ok w
    | none => .ok (if key = "message" then JsVal.str message else JsVal.undefined)
  | _ => .ok JsVal.undefined

/-- Optional chaining `v?.key`: `undefined` when `v` is `null` or `undefined`. -/
def getPropOpt (v : JsVal) (key : String) : Except JsVal JsVal :=
  if v.nullish then .ok JsVal.undefined else getProp v key

/-! ## `JSON.stringify` -/

/-- One character of a JSON string literal (ECMAScript `QuoteJSONString`). -/
def quoteJSONChar (c : Char) : String :=
  if c.toNat = 34 then "\\\""
  else if c.toNat = 92 then "\\\\"
  else if c.toNat = 8 then "\\b"
  else if c.toNat = 12 then "\\f"
  else if c.toNat = 10 then "\\n"
  else if c.toNat = 13 then "\\r"
  else if c.toNat = 9 then "\\t"
  else if c.toNat < 16 then "\\u000" ++ String.mk (Nat.toDigits 16 c.toNat)
  else if c.toNat < 32 then "\\u00" ++ String.mk (Nat.toDigits 16 c.toNat)
  else String.singleton c

/-- The JSON string literal for `s`. -/
def quoteJSONString (s : String) : String :=
  "\"" ++ String.join (s.toList.map quoteJSONChar) ++ "\""

mutual
/-- The serialisation `JSON.stringify` performs on a value: `none` stands for the
`undefined` the serialiser yields for `undefined` itself. -/
def serializeJSON : JsVal → Option String
  | JsVal.undefined => none
  | JsVal.null => some "null"
  | JsVal.bool b => some (if b then "true" else "false")
  | JsVal.num n => some (toString n)
  | JsVal.nan => some "null"
  | JsVal.str s => some (quoteJSONString s)
  | JsVal.arr items => some ("[" ++ ",".intercalate (serializeItems items) ++ "]")
  | JsVal.obj fields => some ("\x7b" ++ ",".intercalate (serializeFields fields) ++ "\x7d")
  | JsVal.error _ _ own => some ("\x7b" ++ ",".intercalate (serializeFields own) ++ "\x7d")
/-- Array elements: an `undefined` element is written `null`. -/
def serializeItems : List JsVal → List String
  | [] => []
  | v :: rest => (serializeJSON v).getD "null" :: serializeItems rest
/-- Object members: a member whose value is `undefined` is left out. -/
def serializeFields : List (String × JsVal) → List String
  | [] => []
  | (k, v) :: rest =>
    match serializeJSON v with
    | some text => (quoteJSONString k ++ ":" ++ text) :: serializeFields rest
    | none => serializeFields rest
end

/-- The call `JSON.stringify(v)` for a `v` that is not `undefined` (the only way line 15
calls it). -/
def JSON_stringify (v : JsVal) : String := (serializeJSON v).getD "undefined"

/-! ## The browser: environment, `fetch`, console -/

/-- A `Response` as `fetch` resolves with it; `json` is the outcome of `response.json()`:
the decoded body, or the error the decoding fails with. -/
structure Response where
  status : Nat
  statusText : String
  url : String
  headers : List (String × String)
  json : Except JsVal JsVal

/-- The `ok` getter of a `Response` (Fetch standard): the status is in 200..299. -/
def Response.ok (r : Response) : Bool := decide (200 ≤ r.status ∧ r.status ≤ 299)

/-- What one call of `fetch` was given: the URL and the members of its options object
(`body` is `undefined` when the options have no `body` member). -/
structure FetchCall where
  url : String
  method : String
  headers : List (String × JsVal)
  credentials : String
  body : JsVal

/-- How the promise returned by `fetch` settles. -/
inductive FetchOutcome where
  | reject (e : JsVal) : FetchOutcome
  | resolve (r : Response) : FetchOutcome

/-- One line written to the console, with the arguments of the call. -/
inductive ConsoleLine where
  | error (args : List JsVal) : ConsoleLine
  | log (args : List JsVal) : ConsoleLine

/-- The ambient names the snippets read and do not define: the constant `API_BASE_URL`,
`localStorage.getItem` (a string, or `none` for `null`) and the helper `getCookie`. -/
structure Env where
  API_BASE_URL : String
  localStorage_getItem : String → Option String
  getCookie : String → JsVal

/-- What a call did and how it ended: the console lines in the order written, the `fetch`
calls in the order issued, and the value returned (`ok`) or the error thrown (`error`). -/
structure Run where
  console : List ConsoleLine
  requests : List FetchCall
  result : Except JsVal JsVal

/-- String conversion of what `localStorage.getItem` returns, as a template literal does
it: the string itself, or the text `null`. -/
def templateText : Option String → String
  | some s => s
  | none => "null"

/-- Set a property: an existing key keeps its place and takes the new value, a new key is
appended. -/
def setField : List (String × JsVal) → String → JsVal → List (String × JsVal)
  | [], key, v => [(key, v)]
  | (k, w) :: rest, key, v => if k = key then (k, v) :: rest else (k, w) :: setField rest key v

/-- The call `Object.fromEntries(h)` over the entries of a `Headers` object `h`. -/
def Object_fromEntries (entries : List (String × String)) : JsVal :=
  JsVal.obj (entries.foldl (fun acc kv => setField acc kv.1 (JsVal.str kv.2)) [])

/-! ## `services/api.service.js` -/

/-- The module-level `headers` object (lines 2-6). -/
def headers (env : Env) : List (String × JsVal) :=
  [ ("Content-Type", JsVal.str "application/json"),
    ("Authorization", JsVal.str ("Token " ++ templateText (env.localStorage_getItem "token"))),
    ("X-CSRFToken", env.getCookie "csrftoken") ]

/-- The error of line 19 for a response of status `status`. -/
def httpError (status : Nat) : JsVal :=
  newError ("HTTP error! status: " ++ toString status)

/-- The default of the parameter `data = null`: it applies when the argument is
`undefined`. -/
def dataParam (data : JsVal) : JsVal :=
  match data with
  | JsVal.undefined => JsVal.null
  | d => d

/-- The `body` member of line 15, `data ? JSON.stringify(data) : null`. -/
def requestBody (data : JsVal) : JsVal :=
  if (dataParam data).truthy then JsVal.str (JSON_stringify (dataParam data)) else JsVal.null

/-- What a caller can pass as `data`: a JSON-like value, or a value on which
`JSON.stringify` throws, namely a BigInt or an object that contains itself. -/
inductive DataArg where
  | value (v : JsVal) : DataArg
  | bigint (n : Int) : DataArg
  | circular : DataArg

/-- The `TypeError` of `JSON.stringify` on a BigInt. -/
def bigintSerializeError : JsVal :=
  JsVal.error "TypeError" "Do not know how to serialize a BigInt" []

/-- The `TypeError` of `JSON.stringify` on an object that contains itself. -/
def circularSerializeError : JsVal :=
  JsVal.error "TypeError" "Converting circular structure to JSON" []

/-- Evaluation of the `body` member of line 15 for any argument: the body, or the error
`JSON.stringify` throws.  A BigInt is falsy when it is `0n`, so only a non-zero BigInt
reaches `JSON.stringify`; an object is always truthy. -/
def bodyMember : DataArg → Except JsVal JsVal
  | DataArg.value v => .ok (requestBody v)
  | DataArg.bigint n => if n != 0 then .error bigintSerializeError else .ok JsVal.null
  | DataArg.circular => .error circularSerializeError

/-- The arguments of the `fetch` call of lines 11-16 once the `body` member has its value;
`method` is `none` when the argument is not supplied, and the parameter default `GET`
applies. -/
def fetchOptions (env : Env) (endpoint : String) (method : Option String)
    (body : JsVal) : FetchCall :=
  { url := env.API_BASE_URL ++ endpoint,
    method := method.getD "GET",
    headers := headers env,
    credentials := "include",
    body := body }

/-- The arguments of the `fetch` call of lines 11-16 for a JSON-like `data`. -/
def makeApiCall_request (env : Env) (endpoint : String) (method : Option String)
    (data : JsVal) : FetchCall :=
  fetchOptions env endpoint method (requestBody data)

/-- One invocation of `fetch`: the request is added to the calls issued so far, and the
transport settles it. -/
def callFetch (fetch : FetchCall → FetchOutcome) (request : FetchCall)
    (issued : List FetchCall) : FetchOutcome × List FetchCall :=
  (fetch request, issued ++ [request])

/-- The `try` block of `makeApiCall` (lines 11-22): the value returned or the error
thrown inside it, and the `fetch` calls issued.  The arguments of `fetch` are evaluated
first, so an error of `JSON.stringify` leaves the block before `fetch` is invoked. -/
def makeApiCall_try (env : Env) (fetch : FetchCall → FetchOutcome) (endpoint : String)
    (method : Option String) (data : DataArg) (issued : List FetchCall) :
    Except JsVal JsVal × List FetchCall :=
  match bodyMember data with
  | .error t => (.error t, issued)
  | .ok body =>
    match callFetch fetch (fetchOptions env endpoint method body) issued with
    | (FetchOutcome.reject e, issued1) => (.error e, issued1)
    | (FetchOutcome.resolve response, issued1) =>
      if !response.ok then (.error (httpError response.status), issued1)
      else (response.json, issued1)

/-- The function `makeApiCall(endpoint, method = 'GET', data = null)`: the `try` block,
then the `catch` block (lines 23-26), which logs the error and throws it again. -/
def makeApiCall (env : Env) (fetch : FetchCall → FetchOutcome) (endpoint : String)
    (method : Option String) (data : DataArg) : Run :=
  match makeApiCall_try env fetch endpoint method data [] with
  | (.ok v, issued) => { console := [], requests := issued, result := .ok v }
  | (.error e, issued) =>
    { console := [ConsoleLine.error [JsVal.str "API call failed:", e]],
      requests := issued,
      result := .error e }

/-! ## `utils/api.test.js` -/

/-- The arguments of the `fetch` call of `testApiConnection` (lines 4-8). -/
def testApiConnection_request (env : Env) : FetchCall :=
  { url := env.API_BASE_URL ++ "/health-check/",
    method := "GET",
    headers := headers env,
    credentials := "include",
    body := JsVal.undefined }

/-- The object logged by lines 10-14. -/
def connectionReport (response : Response) : JsVal :=
  JsVal.obj [ ("status", JsVal.num response.status),
              ("ok", JsVal.bool response.ok),
              ("headers", Object_fromEntries response.headers) ]

/-- The function `testApiConnection()`: there is no `return` statement, so the promise
resolves with `undefined` once the `try` or the `catch` block has run. -/
def testApiConnection (env : Env) (fetch : FetchCall → FetchOutcome) : Run :=
  match callFetch fetch (testApiConnection_request env) [] with
  | (FetchOutcome.resolve response, issued) =>
    { console := [ConsoleLine.log [JsVal.str "API Connection Test:", connectionReport response]],
      requests := issued,
      result := .ok JsVal.undefined }
  | (FetchOutcome.reject e, issued) =>
    { console := [ConsoleLine.error [JsVal.str "API Connection Test Failed:", e]],
      requests := issued,
      result := .ok JsVal.undefined }

/-! ## `utils/error-handler.js` -/

/-- The object literal of lines 2-7; its members are evaluated in order and the first
property read that throws ends the evaluation. -/
def errorRecord (error : JsVal) : Except JsVal JsVal := do
  let message ← getProp error "message"
  let response1 ← getProp error "response"
  let status ← getPropOpt response1 "status"
  let response2 ← getProp error "response"
  let statusText ← getPropOpt response2 "statusText"
  let response3 ← getProp error "response"
  let url ← getPropOpt response3 "url"
  pure (JsVal.obj [ ("message", message), ("status", status),
                    ("statusText", statusText), ("url", url) ])

/-- The statement `if (error.response) { ... }` of lines 10-13: the lines it logs, and
the error it throws if a property read fails. -/
def logResponseDetails (error : JsVal) : List ConsoleLine × Except JsVal Unit :=
  match getProp error "response" with
  | .error t => ([], .error t)
  | .ok response =>
    if response.truthy then
      match getProp response "headers" with
      | .error t => ([ConsoleLine.log [JsVal.str "Response:", response]], .error t)
      | .ok hs =>
        ([ ConsoleLine.log [JsVal.str "Response:", response],
           ConsoleLine.log [JsVal.str "Response Headers:", hs] ], .ok ())
    else ([], .ok ())

/-- The function `handleApiError(error)`; it issues no request and returns `undefined`. -/
def handleApiError (error : JsVal) : Run :=
  match errorRecord error with
  | .error t => { console := [], requests := [], result := .error t }
  | .ok record =>
    let first := ConsoleLine.error [JsVal.str "API Error:", record]
    match logResponseDetails error with
    | (lines, .error t) => { console := first :: lines, requests := [], result := .error t }
    | (lines, .ok _) =>
      { console := first :: lines, requests := [], result := .ok JsVal.undefined }

/-- The number a list of decimal digit characters denotes, continuing from `acc`. -/
def digitsValue (cs : List Char) (acc : Nat) : Nat :=
  cs.foldl (fun a c => 10 * a + (c.toNat - 48)) acc

/-! ## Sample inputs -/

/-- A browser with no stored token and no CSRF cookie (`getCookie` answers `null`). -/
def anonymousEnv : Env :=
  { API_BASE_URL := "http://localhost:8000/api",
    localStorage_getItem := fun _ => none,
    getCookie := fun _ => JsVal.null }

/-- A browser holding the token `tok123` and the CSRF cookie `csrf456`. -/
def signedInEnv : Env :=
  { API_BASE_URL := "http://localhost:8000/api",
    localStorage_getItem := fun key => if key = "token" then some "tok123" else none,
    getCookie := fun name => if name = "csrftoken" then JsVal.str "csrf456" else JsVal.null }

/-- A server that answers every request with the given status and body outcome. -/
def stubServer (status : Nat) (json : Except JsVal JsVal) : FetchCall → FetchOutcome :=
  fun request =>
    FetchOutcome.resolve
      { status := status, statusText := "", url := request.url,
        headers := [("content-type", "application/json")], json := json }

/-- The rejection of `fetch` when the network is unreachable. -/
def networkDown : JsVal := JsVal.error "TypeError" "Failed to fetch" []

/-- A transport that fails every request. -/
def unreachableServer : FetchCall → FetchOutcome :=
  fun _ => FetchOutcome.reject networkDown

/-- The error of `response.json()` on a body that is not JSON. -/
def badJSON : JsVal := JsVal.error "SyntaxError" "Unexpected end of JSON input" []

/-! ## Auxiliary lemmas -/

theorem digitChar_value (k : Nat) (h : k < 10) : (Nat.digitChar k).toNat - 48 = k := by
  interval_cases k <;> rfl

theorem digitsValue_toDigitsCore (fuel : Nat) :
    ∀ (n : Nat) (ds : List Char), n < fuel →
      digitsValue (Nat.toDigitsCore 10 fuel n ds) 0 = digitsValue ds n := by
  induction fuel with
  | zero => intro n ds h; omega
  | succ fuel ih =>
    intro n ds h
    unfold Nat.toDigitsCore
    have hd : (Nat.digitChar (n % 10)).toNat - 48 = n % 10 :=
      digitChar_value (n % 10) (Nat.mod_lt n (by decide))
    by_cases h0 : n / 10 = 0
    · have hn : n % 10 = n := by omega
      simp only [h0, if_true]
      rw [hn] at hd
      simp only [digitsValue, List.foldl_cons, hn, hd, Nat.mul_zero, Nat.zero_add]
    · simp only [h0, if_false]
      rw [ih (n / 10) _ (by omega)]
      simp only [digitsValue, List.foldl_cons, hd]
      congr 1
      omega

theorem digitsValue_repr (n : Nat) : digitsValue (Nat.repr n).data 0 = n := by
  have h := digitsValue_toDigitsCore (n + 1) n [] (Nat.lt_succ_self n)
  simpa [Nat.repr, Nat.toDigits, List.asString, digitsValue] using h

theorem toString_nat_injective (a b : Nat) (h : toString a = toString b) : a = b := by
  have h2 : Nat.repr a = Nat.repr b := h
  have ha := digitsValue_repr a
  rw [h2, digitsValue_repr b] at ha
  exact ha.symm

theorem httpError_injective (a b : Nat) (h : httpError a = httpError b) : a = b := by
  unfold httpError newError at h
  injection h with _ hm _
  apply toString_nat_injective
  have hd := congrArg String.data hm
  simp only [String.data_append] at hd
  exact String.ext (List.append_cancel_left hd)

theorem JSON_stringify_sample :
    JSON_stringify (JsVal.obj [("a", JsVal.num 1)]) = "\x7b\"a\":1\x7d" := by
  simp [JSON_stringify, serializeJSON, serializeFields, quoteJSONString, quoteJSONChar]
  decide

theorem not_nullish_of_truthy (v : JsVal) (h : v.truthy = true) : v.nullish = false := by
  cases v <;> simp_all [JsVal.truthy, JsVal.nullish]

theorem getProp_defined (v : JsVal) (key : String) (h : v.nullish = false) :
    ∃ w, getProp v key = .ok w := by
  cases v <;> simp_all [JsVal.nullish, getProp]
  case error name message own =>
    cases hl : lookupField own key <;> simp

theorem getPropOpt_defined (v : JsVal) (key : String) : ∃ w, getPropOpt v key = .ok w := by
  unfold getPropOpt
  cases hn : v.nullish
  · simpa using getProp_defined v key hn
  · simp

theorem makeApiCall_requests_of_body (env : Env) (fetch : FetchCall → FetchOutcome)
    (endpoint : String) (method : Option String) (data : DataArg) (body : JsVal)
    (hbody : bodyMember data = .ok body) :
    (makeApiCall env fetch endpoint method data).requests
      = [fetchOptions env endpoint method body] := by
  simp only [makeApiCall, makeApiCall_try, hbody, callFetch]
  cases hf : fetch (fetchOptions env endpoint method body) with
  | reject e => rfl
  | resolve r =>
    cases hok : r.ok
    · simp [hok]
    · cases hj : r.json <;> simp [hj, hok]

theorem makeApiCall_requests (env : Env) (fetch : FetchCall → FetchOutcome)
    (endpoint : String) (method : Option String) (data : JsVal) :
    (makeApiCall env fetch endpoint method (DataArg.value data)).requests
      = [makeApiCall_request env endpoint method data] :=
  makeApiCall_requests_of_body env fetch endpoint method (DataArg.value data)
    (requestBody data) rfl

theorem getProp_httpError_not_number (status : Nat) (key : String) (n : Int) :
    getProp (httpError status) key ≠ .ok (JsVal.num n) := by
  unfold httpError newError getProp
  by_cases hk : key = "message" <;> simp [lookupField, hk]

/-! ## `makeApiCall` -/

/-- C1, as the code has it: when `fetch` resolves with a response of status at least 400,
the `ok` flag is false and `makeApiCall` does not return: it throws the error of line
19, a plain `Error` whose only content is the message `HTTP error! status: ` followed
by the decimal status.  No member of that error is a number: the status is in the
message text alone, which determines it (two statuses give the same error only when
they are equal). -/
theorem makeApiCall_status_error (env : Env) (fetch : FetchCall → FetchOutcome)
    (endpoint : String) (method : Option String) (data : JsVal) (response : Response)
    (hfetch : fetch (makeApiCall_request env endpoint method data) = FetchOutcome.resolve response)
    (hstatus : 400 ≤ response.status) :
    response.ok = false ∧
    (makeApiCall env fetch endpoint method (DataArg.value data)).result
      = .error (JsVal.error "Error" ("HTTP error! status: " ++ toString response.status) []) ∧
    (∀ v, (makeApiCall env fetch endpoint method (DataArg.value data)).result ≠ .ok v) ∧
    (∀ status : Nat, httpError status = httpError response.status → status = response.status) ∧
    getProp (httpError response.status) "message"
      = .ok (JsVal.str ("HTTP error! status: " ++ toString response.status)) ∧
    (∀ (key : String) (n : Int),
      getProp (httpError response.status) key ≠ .ok (JsVal.num n)) := by
  have hok : response.ok = false := by
    simp only [Response.ok, decide_eq_false_iff_not]
    omega
  have hfetch2 : fetch (fetchOptions env endpoint method (requestBody data))
      = FetchOutcome.resolve response := hfetch
  refine ⟨hok, ?_, ?_, fun status h => httpError_injective _ _ h, ?_,
    fun key n => getProp_httpError_not_number _ key n⟩
  · simp [makeApiCall, makeApiCall_try, bodyMember, callFetch, hfetch2, hok, httpError, newError]
  · intro v
    simp [makeApiCall, makeApiCall_try, bodyMember, callFetch, hfetch2, hok]
  · simp [httpError, newError, getProp, lookupField]

theorem makeApiCall_status_error_witness :
    (makeApiCall anonymousEnv (stubServer 503 (.ok JsVal.null)) "/items/" none
        (DataArg.value JsVal.null)).result
      = .error (JsVal.error "Error" ("HTTP error! status: " ++ toString 503) []) :=
  (makeApiCall_status_error anonymousEnv (stubServer 503 (.ok JsVal.null)) "/items/" none
    JsVal.null
    { status := 503, statusText := "", url := "http://localhost:8000/api" ++ "/items/",
      headers := [("content-type", "application/json")], json := .ok JsVal.null }
    rfl (by decide)).2.1

/-- C1 fails as stated: against a server answering 503 the error thrown by `makeApiCall`
is the `Error` of line 19, whose `status` and `statusCode` members are `undefined`; the
record `handleApiError` builds from it has `status` `undefined` too.  The number 503
occurs only inside the message text. -/
theorem makeApiCall_error_without_status :
    (makeApiCall anonymousEnv (stubServer 503 (.ok JsVal.null)) "/items/" none
        (DataArg.value JsVal.null)).result = .error (httpError 503) ∧
    getProp (httpError 503) "status" = .ok JsVal.undefined ∧
    getProp (httpError 503) "statusCode" = .ok JsVal.undefined ∧
    getProp (httpError 503) "status" ≠ .ok (JsVal.num 503) ∧
    getProp (httpError 503) "statusCode" ≠ .ok (JsVal.num 503) ∧
    errorRecord (httpError 503)
      = .ok (JsVal.obj [("message", JsVal.str ("HTTP error! status: " ++ toString 503)),
          ("status", JsVal.undefined), ("statusText", JsVal.undefined),
          ("url", JsVal.undefined)]) := by
  refine ⟨rfl, ?_, ?_, ?_, ?_, ?_⟩
  · simp [httpError, newError, getProp, lookupField]
  · simp [httpError, newError, getProp, lookupField]
  · simp [httpError, newError, getProp, lookupField]
  · simp [httpError, newError, getProp, lookupField]
  · simp [errorRecord, httpError, newError, getProp, getPropOpt, lookupField, JsVal.nullish,
      bind, Except.bind, pure, Except.pure]

/-- C2: when `fetch` resolves with a response whose `ok` flag is true and whose body
decodes to `v`, `makeApiCall` returns `v` itself and writes nothing to the console. -/
theorem makeApiCall_success (env : Env) (fetch : FetchCall → FetchOutcome)
    (endpoint : String) (method : Option String) (data : JsVal) (response : Response)
    (v : JsVal)
    (hfetch : fetch (makeApiCall_request env endpoint method data) = FetchOutcome.resolve response)
    (hok : response.ok = true) (hjson : response.json = .ok v) :
    (makeApiCall env fetch endpoint method (DataArg.value data)).result = .ok v ∧
    (makeApiCall env fetch endpoint method (DataArg.value data)).console = [] := by
  have hfetch2 : fetch (fetchOptions env endpoint method (requestBody data))
      = FetchOutcome.resolve response := hfetch
  simp [makeApiCall, makeApiCall_try, bodyMember, callFetch, hfetch2, hok, hjson]

theorem makeApiCall_success_witness :
    (makeApiCall signedInEnv (stubServer 201 (.ok (JsVal.obj [("name", JsVal.str "x")])))
        "/items/" (some "POST") (DataArg.value (JsVal.obj [("name", JsVal.str "x")]))).result
      = .ok (JsVal.obj [("name", JsVal.str "x")]) ∧
    (makeApiCall signedInEnv (stubServer 201 (.ok (JsVal.obj [("name", JsVal.str "x")])))
        "/items/" (some "POST") (DataArg.value (JsVal.obj [("name", JsVal.str "x")]))).console
      = [] :=
  makeApiCall_success signedInEnv (stubServer 201 (.ok (JsVal.obj [("name", JsVal.str "x")])))
    "/items/" (some "POST") (JsVal.obj [("name", JsVal.str "x")])
    { status := 201, statusText := "",
      url := (makeApiCall_request signedInEnv "/items/" (some "POST")
        (JsVal.obj [("name", JsVal.str "x")])).url,
      headers := [("content-type", "application/json")],
      json := .ok (JsVal.obj [("name", JsVal.str "x")]) }
    (JsVal.obj [("name", JsVal.str "x")]) rfl (by decide) rfl

/-- C3: in each failing case of `makeApiCall` (`fetch` rejects with `e`, the response is
not `ok` and `e` is the error of line 19, or decoding the body fails with `e`) the call
throws `e`, and the console holds exactly one line, the `console.error` of line 24,
whose error argument is that same `e`. -/
theorem makeApiCall_failure_logged (env : Env) (fetch : FetchCall → FetchOutcome)
    (endpoint : String) (method : Option String) (data : JsVal) (e : JsVal)
    (hfail :
      fetch (makeApiCall_request env endpoint method data) = FetchOutcome.reject e ∨
      (∃ r, fetch (makeApiCall_request env endpoint method data) = FetchOutcome.resolve r ∧
        r.ok = false ∧ e = httpError r.status) ∨
      (∃ r, fetch (makeApiCall_request env endpoint method data) = FetchOutcome.resolve r ∧
        r.ok = true ∧ r.json = .error e)) :
    (makeApiCall env fetch endpoint method (DataArg.value data)).result = .error e ∧
    (makeApiCall env fetch endpoint method (DataArg.value data)).console
      = [ConsoleLine.error [JsVal.str "API call failed:", e]] := by
  unfold makeApiCall_request at hfail
  rcases hfail with h | ⟨r, h, hok, he⟩ | ⟨r, h, hok, hjson⟩
  · simp [makeApiCall, makeApiCall_try, bodyMember, callFetch, h]
  · simp [makeApiCall, makeApiCall_try, bodyMember, callFetch, h, hok, he]
  · simp [makeApiCall, makeApiCall_try, bodyMember, callFetch, h, hok, hjson]

theorem makeApiCall_failure_logged_witness :
    (makeApiCall anonymousEnv (stubServer 503 (.ok JsVal.null)) "/items/" none
        (DataArg.value JsVal.null)).result
      = .error (httpError 503) ∧
    (makeApiCall anonymousEnv (stubServer 503 (.ok JsVal.null)) "/items/" none
        (DataArg.value JsVal.null)).console
      = [ConsoleLine.error [JsVal.str "API call failed:", httpError 503]] :=
  makeApiCall_failure_logged anonymousEnv (stubServer 503 (.ok JsVal.null)) "/items/" none
    JsVal.null (httpError 503)
    (Or.inr (Or.inl
      ⟨{ status := 503, statusText := "", url := "http://localhost:8000/api" ++ "/items/",
         headers := [("content-type", "application/json")], json := .ok JsVal.null },
       rfl, by decide, rfl⟩))

/-- C10, as the code has it: when the `body` member of line 15 evaluates without an
error (always so for JSON-like `data`), `makeApiCall` invokes `fetch` exactly once,
whether the call then succeeds or fails, with the URL `API_BASE_URL` followed by
`endpoint`, with the given method (`GET` when none is supplied) and with `credentials`
set to `include`.  When `JSON.stringify(data)` throws, `fetch` is not invoked at all:
the error is logged once and thrown to the caller. -/
theorem makeApiCall_one_request (env : Env) (fetch : FetchCall → FetchOutcome)
    (endpoint : String) (method : Option String) (data : DataArg) :
    (∀ body, bodyMember data = .ok body →
      (makeApiCall env fetch endpoint method data).requests
        = [fetchOptions env endpoint method body] ∧
      (makeApiCall env fetch endpoint method data).requests.length = 1 ∧
      (fetchOptions env endpoint method body).url = env.API_BASE_URL ++ endpoint ∧
      (fetchOptions env endpoint method body).method
        = (match method with | some m => m | none => "GET") ∧
      (fetchOptions env endpoint method body).credentials = "include") ∧
    (∀ v, data = DataArg.value v →
      (makeApiCall env fetch endpoint method data).requests
        = [makeApiCall_request env endpoint method v]) ∧
    (∀ t, bodyMember data = .error t →
      (makeApiCall env fetch endpoint method data).requests = [] ∧
      (makeApiCall env fetch endpoint method data).result = .error t ∧
      (makeApiCall env fetch endpoint method data).console
        = [ConsoleLine.error [JsVal.str "API call failed:", t]]) := by
  refine ⟨?_, ?_, ?_⟩
  · intro body hbody
    have hreq := makeApiCall_requests_of_body env fetch endpoint method data body hbody
    refine ⟨hreq, by rw [hreq]; rfl, rfl, ?_, rfl⟩
    cases method <;> rfl
  · intro v hv
    subst hv
    exact makeApiCall_requests env fetch endpoint method v
  · intro t ht
    simp [makeApiCall, makeApiCall_try, ht]

theorem makeApiCall_one_request_witness :
    (makeApiCall signedInEnv unreachableServer "/items/" (some "POST")
        (DataArg.value (JsVal.obj [("name", JsVal.str "x")]))).requests
      = [makeApiCall_request signedInEnv "/items/" (some "POST")
          (JsVal.obj [("name", JsVal.str "x")])] :=
  (makeApiCall_one_request signedInEnv unreachableServer "/items/" (some "POST")
    (DataArg.value (JsVal.obj [("name", JsVal.str "x")]))).2.1
    (JsVal.obj [("name", JsVal.str "x")]) rfl

/-- C10 fails as stated: called with a non-zero BigInt as `data`, against a server that
would answer 200, `makeApiCall` fails with the `TypeError` of `JSON.stringify` and
`fetch` has been invoked zero times; the same holds for an object that contains
itself. -/
theorem makeApiCall_no_request_when_stringify_throws :
    (makeApiCall anonymousEnv (stubServer 200 (.ok JsVal.null)) "/items/" (some "POST")
        (DataArg.bigint 1)).requests = [] ∧
    (makeApiCall anonymousEnv (stubServer 200 (.ok JsVal.null)) "/items/" (some "POST")
        (DataArg.bigint 1)).result = .error bigintSerializeError ∧
    (makeApiCall anonymousEnv (stubServer 200 (.ok JsVal.null)) "/items/" (some "POST")
        DataArg.circular).requests = [] ∧
    (makeApiCall anonymousEnv (stubServer 200 (.ok JsVal.null)) "/items/" (some "POST")
        DataArg.circular).result = .error circularSerializeError := by
  refine ⟨?_, ?_, ?_, ?_⟩ <;> simp [makeApiCall, makeApiCall_try, bodyMember]

/-! ## The request body -/

/-- C8, as the code has it: the body given to `fetch` does not depend on the method.  For
every method, `GET` and the default included, it is the JSON text of `data` when `data`
is truthy and `null` when `data` is falsy. -/
theorem makeApiCall_body_ignores_method (env : Env) (fetch : FetchCall → FetchOutcome)
    (endpoint : String) (method : Option String) (data : JsVal) :
    (makeApiCall env fetch endpoint method (DataArg.value data)).requests.map FetchCall.body
      = [requestBody data] ∧
    (makeApiCall env fetch endpoint method (DataArg.value data)).requests.map FetchCall.body
      = (makeApiCall env fetch endpoint none (DataArg.value data)).requests.map
          FetchCall.body ∧
    requestBody data
      = (if (dataParam data).truthy then JsVal.str (JSON_stringify (dataParam data))
         else JsVal.null) := by
  have hreq := fun m => makeApiCall_requests env fetch endpoint m data
  refine ⟨?_, ?_, rfl⟩
  · rw [hreq]; rfl
  · rw [hreq, hreq]; rfl

/-- C8 fails as stated: called with the default method `GET` and the data `\x7ba: 1\x7d`,
`makeApiCall` gives `fetch` a request of method `GET` whose body is the JSON text of the
data, not `null`. -/
theorem makeApiCall_get_with_body :
    (makeApiCall anonymousEnv unreachableServer "/items/" none
        (DataArg.value (JsVal.obj [("a", JsVal.num 1)]))).requests.map
        (fun r => (r.method, r.body))
      = [("GET", JsVal.str "\x7b\"a\":1\x7d")] := by
  have h := JSON_stringify_sample
  rw [makeApiCall_requests]
  simp [makeApiCall_request, fetchOptions, requestBody, dataParam, JsVal.truthy, h]

/-- C9, as the code has it: the body is the JSON text of `data` exactly when `data` is
truthy, and `null` exactly when `data` is falsy, that is when `data` is `undefined`
(replaced by the default `null`), `null`, `false`, `0`, `NaN` or the empty string. -/
theorem requestBody_truthy (data : JsVal) :
    (requestBody data = JsVal.str (JSON_stringify (dataParam data))
      ↔ (dataParam data).truthy = true) ∧
    (requestBody data = JsVal.null ↔ (dataParam data).truthy = false) ∧
    ((dataParam data).truthy = false ↔
      data = JsVal.undefined ∨ data = JsVal.null ∨ data = JsVal.bool false ∨
      data = JsVal.num 0 ∨ data = JsVal.nan ∨ data = JsVal.str "") := by
  refine ⟨?_, ?_, ?_⟩
  · unfold requestBody
    cases h : (dataParam data).truthy <;> simp
  · unfold requestBody
    cases h : (dataParam data).truthy <;> simp
  · cases data <;> simp [dataParam, JsVal.truthy]

/-- C9 fails as stated: for the non-null data `0`, `false` and the empty string the body
is `null`, not the JSON text of the data. -/
theorem requestBody_falsy_dropped :
    requestBody (JsVal.num 0) = JsVal.null ∧
    requestBody (JsVal.bool false) = JsVal.null ∧
    requestBody (JsVal.str "") = JsVal.null ∧
    JsVal.num 0 ≠ JsVal.null ∧ JsVal.bool false ≠ JsVal.null ∧ JsVal.str "" ≠ JsVal.null := by
  refine ⟨?_, ?_, ?_, ?_, ?_, ?_⟩ <;> simp [requestBody, dataParam, JsVal.truthy]

/-! ## The `headers` object -/

/-- C4, as the code has it: for every stored token and cookie the header map given to
`fetch` has exactly the three keys `Content-Type`, `Authorization` and `X-CSRFToken`;
`Content-Type` is `application/json`; `Authorization` is always there, with the text
`Token ` followed by the stored token, or by `null` when `localStorage.getItem` returns
`null`; `X-CSRFToken` is always there, with what `getCookie` returned, unchanged. -/
theorem headers_always_three (env : Env) (endpoint : String) (method : Option String)
    (data : JsVal) :
    (makeApiCall_request env endpoint method data).headers = headers env ∧
    (headers env).map Prod.fst = ["Content-Type", "Authorization", "X-CSRFToken"] ∧
    lookupField (headers env) "Content-Type" = some (JsVal.str "application/json") ∧
    lookupField (headers env) "Authorization"
      = some (JsVal.str ("Token " ++
          (match env.localStorage_getItem "token" with
           | some authToken => authToken
           | none => "null"))) ∧
    lookupField (headers env) "X-CSRFToken" = some (env.getCookie "csrftoken") := by
  refine ⟨rfl, rfl, ?_, ?_, ?_⟩
  · simp [headers, lookupField]
  · cases h : env.localStorage_getItem "token"
    · simp [headers, lookupField, templateText, h]
      decide
    · simp [headers, lookupField, templateText, h]
  · simp [headers, lookupField]

/-- C4 fails as stated: with no stored token and no CSRF cookie, the request of
`makeApiCall` still has an `Authorization` header, `Token null`, and an `X-CSRFToken`
entry, holding `null`. -/
theorem headers_sent_without_tokens :
    anonymousEnv.localStorage_getItem "token" = none ∧
    anonymousEnv.getCookie "csrftoken" = JsVal.null ∧
    (makeApiCall anonymousEnv unreachableServer "/items/" none
        (DataArg.value JsVal.null)).requests.map
        (fun r => (lookupField r.headers "Authorization", lookupField r.headers "X-CSRFToken"))
      = [(some (JsVal.str "Token null"), some JsVal.null)] := by
  refine ⟨rfl, rfl, ?_⟩
  rw [makeApiCall_requests]
  simp [makeApiCall_request, fetchOptions, headers, lookupField, templateText, anonymousEnv]

/-! ## `testApiConnection` -/

theorem testApiConnection_result (env : Env) (fetch : FetchCall → FetchOutcome) :
    (testApiConnection env fetch).result = .ok JsVal.undefined := by
  simp only [testApiConnection, callFetch]
  cases fetch (testApiConnection_request env) <;> rfl

/-- C5: whatever `fetch` does (it rejects with any error, or resolves with any response),
`testApiConnection` ends without throwing; when `fetch` rejects with `e` the console
holds one line, the `console.error` of line 16 with `e`, and the call still returns. -/
theorem testApiConnection_never_throws (env : Env) (fetch : FetchCall → FetchOutcome) :
    (∀ t, (testApiConnection env fetch).result ≠ .error t) ∧
    (∀ e, fetch (testApiConnection_request env) = FetchOutcome.reject e →
      (testApiConnection env fetch).console
        = [ConsoleLine.error [JsVal.str "API Connection Test Failed:", e]] ∧
      ∃ v, (testApiConnection env fetch).result = .ok v) := by
  refine ⟨?_, ?_⟩
  · intro t
    rw [testApiConnection_result]
    simp
  · intro e he
    refine ⟨?_, JsVal.undefined, testApiConnection_result env fetch⟩
    simp [testApiConnection, callFetch, he]

theorem testApiConnection_never_throws_witness :
    (testApiConnection anonymousEnv unreachableServer).console
      = [ConsoleLine.error [JsVal.str "API Connection Test Failed:", networkDown]] ∧
    ∃ v, (testApiConnection anonymousEnv unreachableServer).result = .ok v :=
  (testApiConnection_never_throws anonymousEnv unreachableServer).2 networkDown rfl

/-- C6, as the code has it: `testApiConnection` returns `undefined` for every outcome of
`fetch`.  When `fetch` resolves, the status, the `ok` flag and the header set of the
response are the members of the object written by the one `console.log` of line 10; when
`fetch` rejects, the one line written is the `console.error` of line 16 and no result
object exists. -/
theorem testApiConnection_returns_undefined (env : Env) (fetch : FetchCall → FetchOutcome) :
    (testApiConnection env fetch).result = .ok JsVal.undefined ∧
    (∀ r, fetch (testApiConnection_request env) = FetchOutcome.resolve r →
      (testApiConnection env fetch).console
        = [ConsoleLine.log [JsVal.str "API Connection Test:", connectionReport r]] ∧
      getProp (connectionReport r) "status" = .ok (JsVal.num r.status) ∧
      getProp (connectionReport r) "ok" = .ok (JsVal.bool r.ok) ∧
      getProp (connectionReport r) "headers" = .ok (Object_fromEntries r.headers)) ∧
    (∀ e, fetch (testApiConnection_request env) = FetchOutcome.reject e →
      (testApiConnection env fetch).console
        = [ConsoleLine.error [JsVal.str "API Connection Test Failed:", e]]) := by
  refine ⟨testApiConnection_result env fetch, ?_, ?_⟩
  · intro r hr
    refine ⟨?_, ?_, ?_, ?_⟩
    · simp [testApiConnection, callFetch, hr]
    · simp [connectionReport, getProp, lookupField]
    · simp [connectionReport, getProp, lookupField]
    · simp [connectionReport, getProp, lookupField]
  · intro e he
    simp [testApiConnection, callFetch, he]

theorem testApiConnection_returns_undefined_witness :
    (testApiConnection anonymousEnv (stubServer 200 (.ok JsVal.null))).console
      = [ConsoleLine.log [JsVal.str "API Connection Test:",
          JsVal.obj [("status", JsVal.num 200), ("ok", JsVal.bool true),
            ("headers", JsVal.obj [("content-type", JsVal.str "application/json")])]]] :=
  ((testApiConnection_returns_undefined anonymousEnv (stubServer 200 (.ok JsVal.null))).2.1
    { status := 200, statusText := "", url := "http://localhost:8000/api" ++ "/health-check/",
      headers := [("content-type", "application/json")], json := .ok JsVal.null }
    rfl).1

/-- C6 fails as stated: against a server answering 200 the value returned is `undefined`,
which has no `status` member equal to 200; against a failing transport the value
returned is `undefined` as well, which has no `ok` member equal to `false`. -/
theorem testApiConnection_no_result_object :
    (testApiConnection anonymousEnv (stubServer 200 (.ok JsVal.null))).result
      = .ok JsVal.undefined ∧
    getProp JsVal.undefined "status" ≠ .ok (JsVal.num 200) ∧
    (testApiConnection anonymousEnv unreachableServer).result = .ok JsVal.undefined ∧
    getProp JsVal.undefined "ok" ≠ .ok (JsVal.bool false) := by
  refine ⟨rfl, ?_, rfl, ?_⟩ <;> simp [getProp]

/-! ## `handleApiError` -/

/-- C7, as the code has it: for every error value other than `null` and `undefined` (a
string, an `Error` with or without a `response` member, any object) `handleApiError`
does not throw: the record of lines 2-7 is built, it is the first console line, and the
call returns `undefined` without issuing a request. -/
theorem handleApiError_completes (error : JsVal) (hvalue : error.nullish = false) :
    ∃ record lines, errorRecord error = .ok record ∧
      (handleApiError error).console
        = ConsoleLine.error [JsVal.str "API Error:", record] :: lines ∧
      (handleApiError error).result = .ok JsVal.undefined ∧
      (handleApiError error).requests = [] := by
  obtain ⟨m, hm⟩ := getProp_defined error "message" hvalue
  obtain ⟨r, hr⟩ := getProp_defined error "response" hvalue
  obtain ⟨st, hst⟩ := getPropOpt_defined r "status"
  obtain ⟨tx, htx⟩ := getPropOpt_defined r "statusText"
  obtain ⟨u, hu⟩ := getPropOpt_defined r "url"
  have hrec : errorRecord error
      = .ok (JsVal.obj [("message", m), ("status", st), ("statusText", tx), ("url", u)]) := by
    simp [errorRecord, hm, hr, hst, htx, hu, bind, Except.bind, pure, Except.pure]
  cases ht : r.truthy
  · refine ⟨_, [], hrec, ?_⟩
    simp [handleApiError, hrec, logResponseDetails, hr, ht]
  · obtain ⟨hs, hhs⟩ := getProp_defined r "headers" (not_nullish_of_truthy r ht)
    refine ⟨_, [ConsoleLine.log [JsVal.str "Response:", r],
      ConsoleLine.log [JsVal.str "Response Headers:", hs]], hrec, ?_⟩
    simp [handleApiError, hrec, logResponseDetails, hr, ht, hhs]

theorem handleApiError_completes_witness :
    ∃ record lines,
      errorRecord (JsVal.error "Error" "Request failed"
        [("response", JsVal.obj [("status", JsVal.num 500)])]) = .ok record ∧
      (handleApiError (JsVal.error "Error" "Request failed"
        [("response", JsVal.obj [("status", JsVal.num 500)])])).console
        = ConsoleLine.error [JsVal.str "API Error:", record] :: lines ∧
      (handleApiError (JsVal.error "Error" "Request failed"
        [("response", JsVal.obj [("status", JsVal.num 500)])])).result = .ok JsVal.undefined ∧
      (handleApiError (JsVal.error "Error" "Request failed"
        [("response", JsVal.obj [("status", JsVal.num 500)])])).requests = [] :=
  handleApiError_completes
    (JsVal.error "Error" "Request failed" [("response", JsVal.obj [("status", JsVal.num 500)])])
    rfl

/-- C7 fails as stated: for `null` and for `undefined` the read `error.message` of line 3
throws a `TypeError`, so `handleApiError` throws before anything is written to the
console. -/
theorem handleApiError_throws_on_null :
    (handleApiError JsVal.null).result
      = .error (JsVal.error "TypeError"
          "Cannot read properties of null (reading \x27message\x27)" []) ∧
    (handleApiError JsVal.null).console = [] ∧
    (handleApiError JsVal.undefined).result
      = .error (JsVal.error "TypeError"
          "Cannot read properties of undefined (reading \x27message\x27)" []) ∧
    (handleApiError JsVal.undefined).console = [] := by
  refine ⟨?_, rfl, ?_, rfl⟩
  · simp [handleApiError, errorRecord, getProp, nullishAccessError, bind, Except.bind]
  · simp [handleApiError, errorRecord, getProp, nullishAccessError, bind, Except.bind]

end Doxly
